import Mathlib

/-!
Verification of the per-user session / auth / link-parsing core of
`src/bot.py` (class `Save_Any_Restricted_robot`).

Shallow embedding conventions:
* `datetime` instants are modelled as natural numbers counting seconds;
  `timedelta(hours=3)` is `three_hours = 3 * 60 * 60`.
* The Python dict `self.user_sessions : Dict[int, UserSession]` is modelled
  as an association list `List (Nat × UserSession)` with dict-style
  lookup/insert/erase (`lookupS`, `insertS`, `eraseS`).
* The telethon client handle is modelled as `Option Unit`: the demo code
  never constructs a client, so only presence/absence is observable; the
  check `session.client and session.client.is_connected()` is modelled as
  `Option.isSome`.
* User-visible replies are abstracted to the `Reply` tags below; the text
  templates carry no further state.
* Python `re` over the ASCII inputs of this bot: `\w` is modelled as
  `isWordChar` (alphanumeric or underscore), `\d` as `Char.isDigit`.
-/

/-! ### Characters and strings -/

/-- ASCII model of the regex class `\w` (letter, digit or underscore). -/
def isWordChar (c : Char) : Bool := c.isAlphanum || c = '_'

/-- Python `str.strip()`: drop leading and trailing whitespace. -/
def pyStrip (s : String) : String :=
  ⟨((s.data.dropWhile Char.isWhitespace).reverse.dropWhile Char.isWhitespace).reverse⟩

/-- Python `str.upper()` on the ASCII strings this bot handles. -/
def pyUpper (s : String) : String := ⟨s.data.map Char.toUpper⟩

/-- Python `int()` applied to a non-empty all-digit string. -/
def digitsToNat (s : String) : Nat :=
  s.data.foldl (fun a c => a * 10 + (c.toNat - '0'.toNat)) 0

/-! ### The three link regexes of `is_telegram_link` / `parse_telegram_link`

Each pattern has the shape `https?://HOST(G1+)/(\d+)` where `G1` is `\w`
or `\d` and `HOST` is a literal.  At a given start position the regex
matches iff the literal `http://HOST` or `https://HOST` is a prefix there
(the two scheme alternatives are mutually exclusive at position 4), then a
non-empty maximal `G1`-run, a `/`, and a non-empty digit run; the
quantifiers need no backtracking because `G1` never matches `/` and `\d+`
ends the pattern.  `re.search` tries every start position left to right. -/

/-- Drop `pre` from the front of `l`, or fail. -/
def dropPrefixChars : List Char → List Char → Option (List Char)
  | [], l => some l
  | _ :: _, [] => none
  | p :: ps, c :: cs => if p = c then dropPrefixChars ps cs else none

/-- Match `(G1+)/(\d+)` at the head of `l`, returning the two groups. -/
def matchGroups (g1 : Char → Bool) (l : List Char) : Option (String × String) :=
  let w := l.takeWhile g1
  match l.dropWhile g1 with
  | '/' :: r2 =>
    let d := r2.takeWhile Char.isDigit
    if w = [] ∨ d = [] then none else some (⟨w⟩, ⟨d⟩)
  | _ => none

/-- Match `https?://` followed by the literal `host` at the head of `l`. -/
def matchScheme (host : List Char) (l : List Char) : Option (List Char) :=
  match dropPrefixChars ("https://".data ++ host) l with
  | some r => some r
  | none => dropPrefixChars ("http://".data ++ host) l

/-- One pattern tried at the head position: scheme, host literal, groups. -/
def matchAt (host : String) (g1 : Char → Bool) (l : List Char) : Option (String × String) :=
  match matchScheme host.data l with
  | some r => matchGroups g1 r
  | none => none

/-- `re.search` for one of the patterns: try every start position. -/
def reSearch (host : String) (g1 : Char → Bool) : List Char → Option (String × String)
  | [] => matchAt host g1 []
  | c :: cs =>
    match matchAt host g1 (c :: cs) with
    | some r => some r
    | none => reSearch host g1 cs

/-- `re.search(r'https?://t\.me/(\w+)/(\d+)', s)`. -/
def search_tme_public (s : String) : Option (String × String) :=
  reSearch "t.me/" isWordChar s.data

/-- `re.search(r'https?://t\.me/c/(\d+)/(\d+)', s)`. -/
def search_tme_private (s : String) : Option (String × String) :=
  reSearch "t.me/c/" Char.isDigit s.data

/-- `re.search(r'https?://telegram\.me/(\w+)/(\d+)', s)`. -/
def search_telegram_me (s : String) : Option (String × String) :=
  reSearch "telegram.me/" isWordChar s.data

/-- `is_telegram_link` (src/bot.py:585-596): true iff some pattern matches
somewhere in `text`. -/
def is_telegram_link (text : String) : Bool :=
  (search_tme_public text).isSome || (search_tme_private text).isSome ||
    (search_telegram_me text).isSome

/-- `parse_telegram_link` (src/bot.py:707-719).  The Python parameter is
named `pattern` and is immediately shadowed by the loop variable
(`for pattern in patterns`), so each iteration evaluates
`re.search(pattern, pattern)` — the regex applied to its own source text —
and the actual argument is never searched.  The embedding reproduces this
faithfully: each search runs on the corresponding pattern's source string,
and the argument is unused. -/
def parse_telegram_link (pattern : String) : Option (String × Nat) :=
  match search_tme_public "https?://t\\.me/(\\w+)/(\\d+)" with
  | some (c, d) => some (c, digitsToNat d)
  | none =>
    match search_tme_private "https?://t\\.me/c/(\\d+)/(\\d+)" with
    | some (c, d) => some (c, digitsToNat d)
    | none =>
      match search_telegram_me "https?://telegram\\.me/(\\w+)/(\\d+)" with
      | some (c, d) => some (c, digitsToNat d)
      | none => none

/-! ### Data model -/

/-- `UserSession` (src/bot.py:34-42). -/
structure UserSession where
  client : Option Unit := none
  phone : Option String := none
  is_premium : Bool := false
  premium_expires : Option Nat := none
  login_step : String := "none"
  is_owner : Bool := false
  deriving Repr, DecidableEq

/-- The mutable state of one `Save_Any_Restricted_robot` instance:
the session dict and the configured owner id. -/
structure BotState where
  user_sessions : List (Nat × UserSession)
  owner_id : Nat
  deriving Repr, DecidableEq

/-- `self.premium_tokens` (src/bot.py:47): fixed allow-list, never mutated. -/
def premium_tokens : List String := ["PREMIUM2024", "SAVE3HOURS", "FREEACCESS"]

/-- `timedelta(hours=3)` in seconds. -/
def three_hours : Nat := 3 * 60 * 60

/-- Dict-style lookup: first binding of `k`. -/
def lookupS (m : List (Nat × UserSession)) (k : Nat) : Option UserSession :=
  match m with
  | [] => none
  | (k', v) :: rest => if k = k' then some v else lookupS rest k

/-- Dict-style insert: replace the first binding of `k`, else append. -/
def insertS (m : List (Nat × UserSession)) (k : Nat) (v : UserSession) :
    List (Nat × UserSession) :=
  match m with
  | [] => [(k, v)]
  | (k', v') :: rest => if k' = k then (k, v) :: rest else (k', v') :: insertS rest k v

/-- Dict-style delete: remove the first binding of `k`. -/
def eraseS (m : List (Nat × UserSession)) (k : Nat) : List (Nat × UserSession) :=
  match m with
  | [] => []
  | (k', v') :: rest => if k' = k then rest else (k', v') :: eraseS rest k

/-! ### Replies

One tag per distinct user-visible response relevant to the claims. -/

inductive Reply where
  | invalidPhoneFormat
  | codeSent (phone : String)
  | invalidCodeFormat
  | loginSuccess
  | twoFASuccess
  | invalidLinkFormat
  | savedSuccess (channel : String) (messageId : Nat)
  | didNotUnderstand
  | alreadyLoggedIn
  | loginPrompt
  | loggedOut
  | ownerNotice
  | tokenMenu
  | tokenActivated
  | tokenInvalid
  deriving Repr, DecidableEq

/-- The replies produced by the link-handling branch of `handle_message`. -/
def isLinkReply : Reply → Bool
  | Reply.invalidLinkFormat => true
  | Reply.savedSuccess _ _ => true
  | _ => false

/-! ### Operations -/

/-- `is_premium_user` (src/bot.py:50-62). -/
def is_premium_user (bot : BotState) (user_id now : Nat) : Bool :=
  if user_id = bot.owner_id then true
  else
    match lookupS bot.user_sessions user_id with
    | some s =>
      s.is_premium &&
        (match s.premium_expires with
         | none => true
         | some e => now < e)
    | none => false

/-- `setup_owner_session` (src/bot.py:64-72). -/
def setup_owner_session (bot : BotState) (user_id : Nat) : BotState :=
  if user_id = bot.owner_id then
    let s := (lookupS bot.user_sessions user_id).getD {}
    { bot with
        user_sessions :=
          insertS bot.user_sessions user_id
            { s with is_premium := true, premium_expires := none, is_owner := true } }
  else bot

/-- `login_command` (src/bot.py:301-336): setup owner session, create the
session if absent, then either report an existing connection or move to
the phone step. -/
def login_command (bot : BotState) (user_id : Nat) : BotState × Reply :=
  let b := setup_owner_session bot user_id
  let sessions :=
    match lookupS b.user_sessions user_id with
    | some _ => b.user_sessions
    | none => insertS b.user_sessions user_id {}
  let s := (lookupS sessions user_id).getD {}
  if s.client.isSome then ({ b with user_sessions := sessions }, Reply.alreadyLoggedIn)
  else
    ({ b with user_sessions := insertS sessions user_id { s with login_step := "phone" } },
      Reply.loginPrompt)

/-- `logout_command` (src/bot.py:338-360): owner keeps the session record
with client and login step reset; any other user's record is deleted. -/
def logout_command (bot : BotState) (user_id : Nat) : BotState × Reply :=
  match lookupS bot.user_sessions user_id with
  | some s =>
    if user_id = bot.owner_id then
      ({ bot with
           user_sessions :=
             insertS bot.user_sessions user_id { s with client := none, login_step := "none" } },
        Reply.loggedOut)
    else ({ bot with user_sessions := eraseS bot.user_sessions user_id }, Reply.loggedOut)
  | none => (bot, Reply.loggedOut)

/-- `status_command` (src/bot.py:362-427), restricted to its state effect
(the owner-session setup) and the displayed daily usage limit computed at
line 392. -/
def status_command (bot : BotState) (user_id now : Nat) : BotState × String :=
  let b := setup_owner_session bot user_id
  (b,
    if user_id = b.owner_id then "∞"
    else if is_premium_user b user_id now then "∞" else "10")

/-- `token_command` (src/bot.py:429-491): owner short-circuits; otherwise
the first argument is uppercased and checked against the allow-list, and a
hit sets `is_premium` and a fresh 3-hour expiry on the (possibly freshly
created) session. -/
def token_command (bot : BotState) (user_id : Nat) (args : List String) (now : Nat) :
    BotState × Reply :=
  if user_id = bot.owner_id then (bot, Reply.ownerNotice)
  else
    match args with
    | [] => (bot, Reply.tokenMenu)
    | a :: _ =>
      let token := pyUpper a
      if token ∈ premium_tokens then
        let sessions :=
          match lookupS bot.user_sessions user_id with
          | some _ => bot.user_sessions
          | none => insertS bot.user_sessions user_id {}
        let s := (lookupS sessions user_id).getD {}
        ({ bot with
             user_sessions :=
               insertS sessions user_id
                 { s with is_premium := true, premium_expires := some (now + three_hours) } },
          Reply.tokenActivated)
      else (bot, Reply.tokenInvalid)

/-- The phone regex `^\+\d{10,15}$` of src/bot.py:727 (applied after
`strip()`, so `$` is end of string). -/
def valid_phone (s : String) : Bool :=
  match s.data with
  | '+' :: ds => ds.all Char.isDigit && 10 ≤ ds.length && ds.length ≤ 15
  | _ => false

/-- The code regex `^\d{5}$` of src/bot.py:761 (applied after `strip()`). -/
def valid_code (s : String) : Bool :=
  s.data.all Char.isDigit && s.data.length = 5

/-- `handle_phone_input` (src/bot.py:721-753): malformed phone leaves the
session untouched; a valid phone is stored (stripped) and the step moves
to `"code"`.  The confirmation message interpolates the raw text. -/
def handle_phone_input (s : UserSession) (phone : String) : UserSession × Reply :=
  if valid_phone (pyStrip phone) then
    ({ s with phone := some (pyStrip phone), login_step := "code" }, Reply.codeSent phone)
  else (s, Reply.invalidPhoneFormat)

/-- `handle_code_input` (src/bot.py:755-796): malformed code leaves the
session untouched; any 5-digit code is accepted by the simulated provider
("For demo purposes, accept any 5-digit code") and the step is cleared. -/
def handle_code_input (s : UserSession) (code : String) : UserSession × Reply :=
  if valid_code (pyStrip code) then ({ s with login_step := "none" }, Reply.loginSuccess)
  else (s, Reply.invalidCodeFormat)

/-- `handle_password_input` (src/bot.py:798-822): the simulated second
factor accepts any text and clears the step. -/
def handle_password_input (s : UserSession) (password : String) : UserSession × Reply :=
  ({ s with login_step := "none" }, Reply.twoFASuccess)

/-- `handle_telegram_link` (src/bot.py:598-705), reduced to its reply: the
simulated fetch in the `try` body always succeeds, so the
private-channel/except branch is unreachable and the outcome is decided by
`parse_telegram_link` alone. -/
def handle_telegram_link (link : String) : Reply :=
  match parse_telegram_link link with
  | none => Reply.invalidLinkFormat
  | some (c, m) => Reply.savedSuccess c m

/-- `handle_message` (src/bot.py:545-583): owner setup, then the login
state machine consumes the text when the session is in an awaiting step,
else link detection, else the default reply. -/
def handle_message (bot : BotState) (user_id : Nat) (text : String) : BotState × Reply :=
  let b := setup_owner_session bot user_id
  match lookupS b.user_sessions user_id with
  | some s =>
    if s.login_step = "phone" then
      let p := handle_phone_input s text
      ({ b with user_sessions := insertS b.user_sessions user_id p.1 }, p.2)
    else if s.login_step = "code" then
      let p := handle_code_input s text
      ({ b with user_sessions := insertS b.user_sessions user_id p.1 }, p.2)
    else if s.login_step = "password" then
      let p := handle_password_input s text
      ({ b with user_sessions := insertS b.user_sessions user_id p.1 }, p.2)
    else if is_telegram_link text then (b, handle_telegram_link text)
    else (b, Reply.didNotUnderstand)
  | none =>
    if is_telegram_link text then (b, handle_telegram_link text)
    else (b, Reply.didNotUnderstand)

/-! ### Reachable bot states

The operations above are the only code paths that create or mutate
sessions (`start_command` and `status_command` touch state only through
`setup_owner_session`; the callback handler dispatches to the same
commands; the remaining commands are read-only). -/

inductive Reachable : BotState → Prop where
  | init (owner_id : Nat) : Reachable { user_sessions := [], owner_id := owner_id }
  | setup {b : BotState} (uid : Nat) : Reachable b → Reachable (setup_owner_session b uid)
  | login {b : BotState} (uid : Nat) : Reachable b → Reachable (login_command b uid).1
  | logout {b : BotState} (uid : Nat) : Reachable b → Reachable (logout_command b uid).1
  | token {b : BotState} (uid : Nat) (args : List String) (now : Nat) :
      Reachable b → Reachable (token_command b uid args now).1
  | message {b : BotState} (uid : Nat) (text : String) :
      Reachable b → Reachable (handle_message b uid text).1

/-! ### Spec-side reference definition (for the refinement claim C6) -/

/-- Modelled from the spec: §4.3 `canProceed` — Owner is always allowed;
otherwise the quota ceiling is 100 when effectively Premium and 10
otherwise, and the request is allowed iff `dailyUsageCount` is below the
ceiling.  The source has no such function (no daily counter exists); this
definition follows the spec's words for comparison. -/
def specCanProceed (isOwner effectivelyPremium : Bool) (dailyUsageCount : Nat) : Bool :=
  if isOwner then true
  else dailyUsageCount < (if effectivelyPremium then 100 else 10)

/-! ### Concrete states used by counterexamples and witnesses -/

/-- A bot with no sessions; owner id 1. -/
def emptyBot : BotState := { user_sessions := [], owner_id := 1 }

/-- A non-owner user 7 with a fresh (unauthenticated) session. -/
def unauthBot : BotState := { user_sessions := [(7, {})], owner_id := 1 }

/-- A non-owner user 7 holding a connected client outside any login step. -/
def authBot : BotState :=
  { user_sessions := [(7, { client := some (), login_step := "none" })], owner_id := 1 }

/-- A non-owner user 7 currently in the phone-awaiting step. -/
def phoneStepBot : BotState :=
  { user_sessions := [(7, { login_step := "phone" })], owner_id := 1 }

/-- A non-owner user 7 with unexpired time-boxed premium. -/
def premiumBot : BotState :=
  { user_sessions := [(7, { is_premium := true, premium_expires := some 999999 })],
    owner_id := 1 }

/-- The owner (id 1) mid-login with a stored phone, client present. -/
def ownerBot : BotState :=
  { user_sessions :=
      [(1, { client := some (), phone := some "+1234567890", is_premium := true,
             premium_expires := none, login_step := "code", is_owner := true })],
    owner_id := 1 }

/-! ### Association-list lemmas -/

theorem lookupS_insertS_self (m : List (Nat × UserSession)) (k : Nat) (v : UserSession) :
    lookupS (insertS m k v) k = some v := by
  induction m with
  | nil => simp [insertS, lookupS]
  | cons p rest ih =>
    obtain ⟨k', v'⟩ := p
    by_cases h : k' = k
    · subst h; simp [insertS, lookupS]
    · simp [insertS, h, lookupS, Ne.symm h, ih]

theorem mem_insertS {m : List (Nat × UserSession)} {k : Nat} {v : UserSession}
    {p : Nat × UserSession} (hp : p ∈ insertS m k v) : p = (k, v) ∨ p ∈ m := by
  induction m with
  | nil => simpa [insertS] using hp
  | cons q rest ih =>
    obtain ⟨k', v'⟩ := q
    by_cases h : k' = k
    · subst h
      rcases List.mem_cons.mp (by simpa [insertS] using hp) with h1 | h2
      · exact Or.inl h1
      · exact Or.inr (List.mem_cons_of_mem _ h2)
    · rcases List.mem_cons.mp (by simpa [insertS, h] using hp) with h1 | h2
      · exact Or.inr (List.mem_cons.mpr (Or.inl h1))
      · rcases ih h2 with h3 | h4
        · exact Or.inl h3
        · exact Or.inr (List.mem_cons_of_mem _ h4)

theorem mem_eraseS {m : List (Nat × UserSession)} {k : Nat} {p : Nat × UserSession}
    (hp : p ∈ eraseS m k) : p ∈ m := by
  induction m with
  | nil =>
    simp [eraseS] at hp
  | cons q rest ih =>
    obtain ⟨k', v'⟩ := q
    by_cases h : k' = k
    · subst h
      exact List.mem_cons_of_mem _ (by simpa [eraseS] using hp)
    · rcases List.mem_cons.mp (by simpa [eraseS, h] using hp) with h1 | h2
      · exact List.mem_cons.mpr (Or.inl h1)
      · exact List.mem_cons_of_mem _ (ih h2)

theorem lookupS_mem {m : List (Nat × UserSession)} {k : Nat} {v : UserSession}
    (h : lookupS m k = some v) : ∃ k', (k', v) ∈ m := by
  induction m with
  | nil => simp [lookupS] at h
  | cons q rest ih =>
    obtain ⟨k', v'⟩ := q
    by_cases hk : k = k'
    · have hv : v' = v := by simpa [lookupS, hk] using h
      exact ⟨k', by rw [← hv]; exact List.mem_cons_self _ _⟩
    · obtain ⟨kk, hkk⟩ := ih (by simpa [lookupS, hk] using h)
      exact ⟨kk, List.mem_cons_of_mem _ hkk⟩

/-! ### The login-step invariant -/

/-- The login steps that actually occur: the code assigns only `"phone"`
(src/bot.py:322), `"code"` (738) and `"none"` (350, 775, 806). -/
def StepOK (s : UserSession) : Prop :=
  s.login_step = "none" ∨ s.login_step = "phone" ∨ s.login_step = "code"

/-- Every session stored in the dict has an occurring login step. -/
def SessionsOK (m : List (Nat × UserSession)) : Prop := ∀ p ∈ m, StepOK p.2

theorem sessionsOK_insertS {m : List (Nat × UserSession)} {k : Nat} {v : UserSession}
    (hm : SessionsOK m) (hv : StepOK v) : SessionsOK (insertS m k v) := by
  intro p hp
  rcases mem_insertS hp with h | h
  · rw [h]; exact hv
  · exact hm p h

theorem sessionsOK_eraseS {m : List (Nat × UserSession)} {k : Nat}
    (hm : SessionsOK m) : SessionsOK (eraseS m k) :=
  fun p hp => hm p (mem_eraseS hp)

theorem sessionsOK_lookupS {m : List (Nat × UserSession)} {k : Nat} {s : UserSession}
    (hm : SessionsOK m) (h : lookupS m k = some s) : StepOK s := by
  obtain ⟨kk, hkk⟩ := lookupS_mem h
  exact hm (kk, s) hkk

theorem stepOK_default : StepOK {} := Or.inl rfl

theorem stepOK_congr {s t : UserSession} (h : t.login_step = s.login_step)
    (hs : StepOK s) : StepOK t := by
  unfold StepOK at hs ⊢
  rw [h]
  exact hs

theorem stepOK_getD {m : List (Nat × UserSession)} {k : Nat} (hm : SessionsOK m) :
    StepOK ((lookupS m k).getD {}) := by
  cases hl : lookupS m k with
  | none => exact stepOK_default
  | some s => exact sessionsOK_lookupS hm hl

theorem setup_preserves {b : BotState} (uid : Nat) (hb : SessionsOK b.user_sessions) :
    SessionsOK (setup_owner_session b uid).user_sessions := by
  unfold setup_owner_session
  by_cases h : uid = b.owner_id
  · simp only [h, if_pos rfl]
    exact sessionsOK_insertS hb (stepOK_getD hb)
  · simp only [if_neg h]
    exact hb

theorem login_preserves {b : BotState} (uid : Nat) (hb : SessionsOK b.user_sessions) :
    SessionsOK (login_command b uid).1.user_sessions := by
  have h1 := setup_preserves uid hb
  simp only [login_command]
  cases hl : lookupS (setup_owner_session b uid).user_sessions uid with
  | some s =>
    simp only [hl, Option.getD_some]
    by_cases hc : s.client.isSome
    · simpa [hc] using h1
    · simp only [hc, if_false, Bool.false_eq_true]
      exact sessionsOK_insertS h1 (Or.inr (Or.inl rfl))
  | none =>
    simp only [hl, lookupS_insertS_self, Option.getD_some]
    have hd : (({} : UserSession).client).isSome = false := rfl
    simp only [hd, if_false, Bool.false_eq_true]
    exact sessionsOK_insertS (sessionsOK_insertS h1 stepOK_default) (Or.inr (Or.inl rfl))

theorem logout_preserves {b : BotState} (uid : Nat) (hb : SessionsOK b.user_sessions) :
    SessionsOK (logout_command b uid).1.user_sessions := by
  simp only [logout_command]
  cases hl : lookupS b.user_sessions uid with
  | some s =>
    by_cases h : uid = b.owner_id
    · simp only [hl, if_pos h]
      exact sessionsOK_insertS hb (Or.inl rfl)
    · simp only [hl, if_neg h]
      exact sessionsOK_eraseS hb
  | none => simpa [hl] using hb

theorem token_preserves {b : BotState} (uid : Nat) (args : List String) (now : Nat)
    (hb : SessionsOK b.user_sessions) :
    SessionsOK (token_command b uid args now).1.user_sessions := by
  simp only [token_command]
  by_cases h : uid = b.owner_id
  · simpa [h] using hb
  · simp only [if_neg h]
    cases args with
    | nil => exact hb
    | cons a rest =>
      by_cases ht : pyUpper a ∈ premium_tokens
      · simp only [if_pos ht]
        cases hl : lookupS b.user_sessions uid with
        | some s =>
          simp only [hl, Option.getD_some]
          refine sessionsOK_insertS hb ?_
          have h2 := sessionsOK_lookupS hb hl
          unfold StepOK at h2 ⊢
          simpa using h2
        | none =>
          simp only [hl, lookupS_insertS_self, Option.getD_some]
          exact sessionsOK_insertS (sessionsOK_insertS hb stepOK_default) stepOK_default
      · simpa [ht] using hb

theorem stepOK_phone_result {s : UserSession} (hs : StepOK s) (text : String) :
    StepOK (handle_phone_input s text).1 := by
  unfold handle_phone_input
  by_cases h : valid_phone (pyStrip text)
  · simp only [h, if_true]
    exact Or.inr (Or.inr rfl)
  · simpa [h] using hs

theorem stepOK_code_result {s : UserSession} (hs : StepOK s) (text : String) :
    StepOK (handle_code_input s text).1 := by
  unfold handle_code_input
  by_cases h : valid_code (pyStrip text)
  · simp only [h, if_true]
    exact Or.inl rfl
  · simpa [h] using hs

theorem stepOK_password_result (s : UserSession) (text : String) :
    StepOK (handle_password_input s text).1 := Or.inl rfl

theorem message_preserves {b : BotState} (uid : Nat) (text : String)
    (hb : SessionsOK b.user_sessions) :
    SessionsOK (handle_message b uid text).1.user_sessions := by
  have h1 := setup_preserves uid hb
  simp only [handle_message]
  cases hl : lookupS (setup_owner_session b uid).user_sessions uid with
  | some s =>
    have hs := sessionsOK_lookupS h1 hl
    simp only [hl]
    by_cases hp : s.login_step = "phone"
    · simp only [hp, if_pos rfl]
      exact sessionsOK_insertS h1 (stepOK_phone_result hs text)
    · simp only [if_neg hp]
      by_cases hc : s.login_step = "code"
      · simp only [hc, if_pos rfl]
        exact sessionsOK_insertS h1 (stepOK_code_result hs text)
      · simp only [if_neg hc]
        by_cases hw : s.login_step = "password"
        · simp only [hw, if_pos rfl]
          exact sessionsOK_insertS h1 (stepOK_password_result s text)
        · simp only [if_neg hw]
          by_cases hli : is_telegram_link text
          · simpa [hli] using h1
          · simpa [hli] using h1
  | none =>
    simp only [hl]
    by_cases hli : is_telegram_link text
    · simpa [hli] using h1
    · simpa [hli] using h1

/-- All reachable bot states store only occurring login steps. -/
theorem reachable_sessionsOK {b : BotState} (h : Reachable b) : SessionsOK b.user_sessions := by
  induction h with
  | init o => intro p hp; cases hp
  | setup uid _ ih => exact setup_preserves uid ih
  | login uid _ ih => exact login_preserves uid ih
  | logout uid _ ih => exact logout_preserves uid ih
  | token uid args now _ ih => exact token_preserves uid args now ih
  | message uid text _ ih => exact message_preserves uid text ih

/-! ### Characterizations of `handle_message` -/

/-- Because `parse_telegram_link` never matches (its argument is shadowed),
the link handler always reports an invalid link format. -/
theorem handle_telegram_link_eq (link : String) :
    handle_telegram_link link = Reply.invalidLinkFormat := rfl

theorem handle_message_phone {b : BotState} {uid : Nat} {text : String} {s : UserSession}
    (hl : lookupS (setup_owner_session b uid).user_sessions uid = some s)
    (h : s.login_step = "phone") :
    (handle_message b uid text).2 = (handle_phone_input s text).2 := by
  simp [handle_message, hl, h]

theorem handle_message_code {b : BotState} {uid : Nat} {text : String} {s : UserSession}
    (hl : lookupS (setup_owner_session b uid).user_sessions uid = some s)
    (h : s.login_step = "code") :
    (handle_message b uid text).2 = (handle_code_input s text).2 := by
  simp [handle_message, hl, h]

theorem handle_message_password {b : BotState} {uid : Nat} {text : String} {s : UserSession}
    (hl : lookupS (setup_owner_session b uid).user_sessions uid = some s)
    (h : s.login_step = "password") :
    (handle_message b uid text).2 = (handle_password_input s text).2 := by
  simp [handle_message, hl, h]

theorem handle_message_link_of_some {b : BotState} {uid : Nat} {text : String} {s : UserSession}
    (hl : lookupS (setup_owner_session b uid).user_sessions uid = some s)
    (h1 : s.login_step ≠ "phone") (h2 : s.login_step ≠ "code")
    (h3 : s.login_step ≠ "password") (hli : is_telegram_link text = true) :
    (handle_message b uid text).2 = handle_telegram_link text := by
  simp [handle_message, hl, h1, h2, h3, hli]

theorem handle_message_link_of_none {b : BotState} {uid : Nat} {text : String}
    (hl : lookupS (setup_owner_session b uid).user_sessions uid = none)
    (hli : is_telegram_link text = true) :
    (handle_message b uid text).2 = handle_telegram_link text := by
  simp [handle_message, hl, hli]

theorem isLinkReply_phone (s : UserSession) (text : String) :
    isLinkReply (handle_phone_input s text).2 = false := by
  unfold handle_phone_input
  by_cases h : valid_phone (pyStrip text) <;> simp [h, isLinkReply]

theorem isLinkReply_code (s : UserSession) (text : String) :
    isLinkReply (handle_code_input s text).2 = false := by
  unfold handle_code_input
  by_cases h : valid_code (pyStrip text) <;> simp [h, isLinkReply]

theorem isLinkReply_password (s : UserSession) (text : String) :
    isLinkReply (handle_password_input s text).2 = false := rfl

/-! ### `token_command` helpers -/

theorem token_command_owner_id (bot : BotState) (uid : Nat) (args : List String) (now : Nat) :
    (token_command bot uid args now).1.owner_id = bot.owner_id := by
  simp only [token_command]
  by_cases h : uid = bot.owner_id
  · simp [h]
  · simp only [if_neg h]
    cases args with
    | nil => rfl
    | cons a rest =>
      by_cases ht : pyUpper a ∈ premium_tokens
      · simp only [if_pos ht]
      · simp [ht]

theorem token_command_redeem {bot : BotState} {uid : Nat} {a : String} {now : Nat}
    (ho : uid ≠ bot.owner_id) (ht : pyUpper a ∈ premium_tokens) :
    lookupS (token_command bot uid [a] now).1.user_sessions uid =
      some { (lookupS bot.user_sessions uid).getD {} with
             is_premium := true, premium_expires := some (now + three_hours) } ∧
    (token_command bot uid [a] now).2 = Reply.tokenActivated := by
  simp only [token_command, if_neg ho, if_pos ht]
  cases hl : lookupS bot.user_sessions uid with
  | some s => simp [hl, lookupS_insertS_self]
  | none => simp [hl, lookupS_insertS_self]

/-! ### The claims -/

/-- C1 (code_bug): the spec's round-trip examples fail because
`parse_telegram_link` returns `none` for every input: its `pattern`
argument is shadowed by the loop variable, so each regex is searched in
its own source text (which never contains a match).  Meanwhile
`is_telegram_link` does recognize the very links `parse_telegram_link`
then rejects. -/
theorem parse_telegram_link_code_bug :
    (∀ s : String, parse_telegram_link s = none) ∧
    is_telegram_link "https://t.me/news/42" = true ∧
    is_telegram_link "https://t.me/c/555/42" = true ∧
    is_telegram_link "hello world" = false :=
  ⟨fun _ => rfl, by decide, by decide, by decide⟩

/-- C2 (corrected, counterexample): a recognized numeric-channel link
`https://t.me/c/555/42` sent by user 7 gets the invalid-link-format reply
both without and with a client handle — the save flow neither flags the
reference private nor requires authentication. -/
theorem numeric_channel_auth_gate_cex :
    is_telegram_link "https://t.me/c/555/42" = true ∧
    (handle_message unauthBot 7 "https://t.me/c/555/42").2 = Reply.invalidLinkFormat ∧
    (handle_message authBot 7 "https://t.me/c/555/42").2 = Reply.invalidLinkFormat := by
  refine ⟨by decide, by decide, by decide⟩

/-- C2 (amended): whenever the session is in no awaiting step, every
message recognized as a link — numeric channel token or not — is answered
with the invalid-link-format reply, independent of the session's
authentication state; no authentication requirement is ever enforced. -/
theorem link_flow_never_requires_auth :
    ∀ (bot : BotState) (uid : Nat) (text : String),
      (∀ s, lookupS (setup_owner_session bot uid).user_sessions uid = some s →
        s.login_step ≠ "phone" ∧ s.login_step ≠ "code" ∧ s.login_step ≠ "password") →
      is_telegram_link text = true →
      (handle_message bot uid text).2 = Reply.invalidLinkFormat := by
  intro bot uid text hstep hli
  cases hl : lookupS (setup_owner_session bot uid).user_sessions uid with
  | some s =>
    obtain ⟨h1, h2, h3⟩ := hstep s hl
    rw [handle_message_link_of_some hl h1 h2 h3 hli, handle_telegram_link_eq]
  | none =>
    rw [handle_message_link_of_none hl hli, handle_telegram_link_eq]

theorem link_flow_never_requires_auth_witness :
    (handle_message emptyBot 7 "https://t.me/news/42").2 = Reply.invalidLinkFormat :=
  link_flow_never_requires_auth emptyBot 7 "https://t.me/news/42"
    (fun _ h => Option.noConfusion h) (by decide)

/-- C3: in the phone-awaiting step, text whose stripped form matches
`^\+\d{10,15}$` stores the stripped phone and moves the step to `"code"`;
any other text leaves the session completely unchanged and produces the
format-error reply. -/
theorem phone_step_transition :
    ∀ (s : UserSession) (text : String), s.login_step = "phone" →
      (valid_phone (pyStrip text) = true →
        handle_phone_input s text =
          ({ s with phone := some (pyStrip text), login_step := "code" },
            Reply.codeSent text)) ∧
      (valid_phone (pyStrip text) = false →
        handle_phone_input s text = (s, Reply.invalidPhoneFormat)) := by
  intro s text _
  constructor <;> intro h <;> simp [handle_phone_input, h]

theorem phone_step_transition_witness :
    handle_phone_input { login_step := "phone" } "+12345678901" =
      ({ phone := some (pyStrip "+12345678901"), login_step := "code" },
        Reply.codeSent "+12345678901") :=
  (phone_step_transition { login_step := "phone" } "+12345678901" rfl).1 (by decide)

/-- C4: in the code-awaiting step, text whose stripped form is not a
5-digit code leaves the session unchanged (so there is no retry counter)
with an error reply; a 5-digit code is accepted by the simulated provider
— which never rejects a well-formed code and never signals a second
factor — and the session always moves to the authenticated state
(`login_step = "none"`). -/
theorem code_step_transition :
    ∀ (s : UserSession) (text : String), s.login_step = "code" →
      (valid_code (pyStrip text) = false →
        handle_code_input s text = (s, Reply.invalidCodeFormat)) ∧
      (valid_code (pyStrip text) = true →
        handle_code_input s text =
          ({ s with login_step := "none" }, Reply.loginSuccess)) := by
  intro s text _
  constructor <;> intro h <;> simp [handle_code_input, h]

theorem code_step_transition_witness :
    handle_code_input { login_step := "code" } "12345" =
      ({ login_step := "none" }, Reply.loginSuccess) :=
  (code_step_transition { login_step := "code" } "12345" rfl).2 (by decide)

/-- C5: when the session is in any awaiting step, the inbound text is
consumed by the corresponding auth handler and the reply is never a
link-handling reply, even if the text contains a recognizable link; link
handling runs exactly when the session is in no awaiting step. -/
theorem awaiting_steps_consume_messages :
    ∀ (bot : BotState) (uid : Nat) (text : String) (s : UserSession),
      lookupS (setup_owner_session bot uid).user_sessions uid = some s →
      ((s.login_step = "phone" →
          (handle_message bot uid text).2 = (handle_phone_input s text).2 ∧
          isLinkReply (handle_message bot uid text).2 = false) ∧
       (s.login_step = "code" →
          (handle_message bot uid text).2 = (handle_code_input s text).2 ∧
          isLinkReply (handle_message bot uid text).2 = false) ∧
       (s.login_step = "password" →
          (handle_message bot uid text).2 = (handle_password_input s text).2 ∧
          isLinkReply (handle_message bot uid text).2 = false) ∧
       (s.login_step ≠ "phone" → s.login_step ≠ "code" → s.login_step ≠ "password" →
          is_telegram_link text = true →
          (handle_message bot uid text).2 = handle_telegram_link text)) := by
  intro bot uid text s hl
  refine ⟨fun h => ?_, fun h => ?_, fun h => ?_, fun h1 h2 h3 hli => ?_⟩
  · rw [handle_message_phone hl h]
    exact ⟨rfl, isLinkReply_phone s text⟩
  · rw [handle_message_code hl h]
    exact ⟨rfl, isLinkReply_code s text⟩
  · rw [handle_message_password hl h]
    exact ⟨rfl, isLinkReply_password s text⟩
  · exact handle_message_link_of_some hl h1 h2 h3 hli

theorem awaiting_steps_consume_messages_witness :
    (handle_message phoneStepBot 7 "https://t.me/news/42").2 =
      (handle_phone_input { login_step := "phone" } "https://t.me/news/42").2 ∧
    isLinkReply (handle_message phoneStepBot 7 "https://t.me/news/42").2 = false :=
  (awaiting_steps_consume_messages phoneStepBot 7 "https://t.me/news/42"
      { login_step := "phone" } rfl).1 rfl

/-- C6 (corrected, counterexample): for a non-owner user whose session is
effectively premium, the code's displayed daily quota is the string `"∞"`
— not a ceiling of 100 — while the spec's reference `canProceed` would
deny at `dailyUsageCount = 100`; no daily counter exists in the code. -/
theorem premium_ceiling_cex :
    is_premium_user premiumBot 7 0 = true ∧
    (status_command premiumBot 7 0).2 = "∞" ∧
    ("∞" : String) ≠ "100" ∧
    specCanProceed false true 100 = false := by decide

/-- C6 (amended): the owner check always allows; for any other user the
code's only access distinction is `is_premium_user` (premium flag with
absent or strictly-future expiry), and the status display reports the
daily limit as `"∞"` for premium users (and the owner) and `"10"`
otherwise — usage is never counted and no save is ever denied. -/
theorem access_decision_amended :
    ∀ (bot : BotState) (uid now : Nat),
      (uid = bot.owner_id → is_premium_user bot uid now = true) ∧
      (uid ≠ bot.owner_id →
        (is_premium_user bot uid now = true ↔
          ∃ s, lookupS bot.user_sessions uid = some s ∧ s.is_premium = true ∧
            (s.premium_expires = none ∨ ∃ e, s.premium_expires = some e ∧ now < e))) ∧
      ((status_command bot uid now).2 =
        if is_premium_user (setup_owner_session bot uid) uid now then "∞" else "10") := by
  intro bot uid now
  refine ⟨fun h => by simp [is_premium_user, h], fun h => ?_, ?_⟩
  · simp only [is_premium_user, if_neg h]
    cases hl : lookupS bot.user_sessions uid with
    | none => simp
    | some s =>
      cases he : s.premium_expires with
      | none => simp [he]
      | some e => simp [he]
  · have hown : (setup_owner_session bot uid).owner_id = bot.owner_id := by
      unfold setup_owner_session
      by_cases h : uid = bot.owner_id <;> simp [h]
    by_cases h : uid = bot.owner_id
    · have hcond : uid = (setup_owner_session bot uid).owner_id := by rw [hown]; exact h
      have hprem : is_premium_user (setup_owner_session bot uid) uid now = true := by
        unfold is_premium_user
        rw [if_pos hcond]
      simp only [status_command]
      rw [if_pos hcond, if_pos hprem]
    · have hcond : ¬ uid = (setup_owner_session bot uid).owner_id := by rw [hown]; exact h
      simp only [status_command]
      rw [if_neg hcond]

theorem access_decision_amended_witness : is_premium_user emptyBot 1 0 = true :=
  (access_decision_amended emptyBot 1 0).1 rfl

/-- C7: redeeming any allow-listed token as a non-owner sets the session's
premium expiry to exactly the redemption instant plus three hours, and a
second redemption overwrites the expiry with the second instant plus three
hours (no accumulation). -/
theorem token_redemption_overwrites_expiry :
    ∀ (bot : BotState) (uid : Nat) (tok : String) (now1 now2 : Nat),
      uid ≠ bot.owner_id → pyUpper tok ∈ premium_tokens →
      (∃ s1, lookupS (token_command bot uid [tok] now1).1.user_sessions uid = some s1 ∧
         s1.is_premium = true ∧ s1.premium_expires = some (now1 + three_hours)) ∧
      (∃ s2,
         lookupS (token_command (token_command bot uid [tok] now1).1 uid
             [tok] now2).1.user_sessions uid = some s2 ∧
         s2.is_premium = true ∧ s2.premium_expires = some (now2 + three_hours)) := by
  intro bot uid tok now1 now2 ho ht
  have ho2 : uid ≠ (token_command bot uid [tok] now1).1.owner_id := by
    rw [token_command_owner_id]
    exact ho
  refine ⟨⟨_, (token_command_redeem ho ht).1, rfl, rfl⟩,
    ⟨_, (token_command_redeem ho2 ht).1, rfl, rfl⟩⟩

theorem token_redemption_overwrites_expiry_witness :
    (∃ s1, lookupS (token_command emptyBot 7 ["premium2024"] 0).1.user_sessions 7 = some s1 ∧
       s1.is_premium = true ∧ s1.premium_expires = some (0 + three_hours)) ∧
    (∃ s2,
       lookupS (token_command (token_command emptyBot 7 ["premium2024"] 0).1 7
           ["premium2024"] 50).1.user_sessions 7 = some s2 ∧
       s2.is_premium = true ∧ s2.premium_expires = some (50 + three_hours)) :=
  token_redemption_overwrites_expiry emptyBot 7 "premium2024" 0 50 (by decide) (by decide)

/-- C8 (corrected, counterexample): after the owner's `/logout`, the
stored phone is retained (`some "+1234567890"`), contradicting the claim
that the phone is among the cleared auth fields. -/
theorem owner_logout_keeps_phone_cex :
    lookupS (logout_command ownerBot 1).1.user_sessions 1 =
      some { client := none, phone := some "+1234567890", is_premium := true,
             premium_expires := none, login_step := "none", is_owner := true } ∧
    ¬ ((lookupS (logout_command ownerBot 1).1.user_sessions 1).map UserSession.phone =
        some none) := by decide

/-- C8 (amended): on `/logout` with an existing session, a non-owner's
whole session record is deleted, while the owner's record is retained
with exactly the client handle and login step cleared — the phone and the
tier/usage fields (premium flag, premium expiry, owner flag) are
unchanged. -/
theorem logout_amended :
    ∀ (bot : BotState) (uid : Nat) (s : UserSession),
      lookupS bot.user_sessions uid = some s →
      (uid = bot.owner_id →
        lookupS (logout_command bot uid).1.user_sessions uid =
          some { s with client := none, login_step := "none" } ∧
        (logout_command bot uid).2 = Reply.loggedOut) ∧
      (uid ≠ bot.owner_id →
        (logout_command bot uid).1.user_sessions = eraseS bot.user_sessions uid ∧
        (logout_command bot uid).2 = Reply.loggedOut) := by
  intro bot uid s hl
  constructor <;> intro h
  · simp only [logout_command, hl]
    rw [if_pos h]
    exact ⟨lookupS_insertS_self _ _ _, rfl⟩
  · simp only [logout_command, hl]
    rw [if_neg h]
    exact ⟨rfl, rfl⟩

theorem logout_amended_witness :
    lookupS (logout_command ownerBot 1).1.user_sessions 1 =
      some { client := none, phone := some "+1234567890", is_premium := true,
             premium_expires := none, login_step := "none", is_owner := true } ∧
    (logout_command ownerBot 1).2 = Reply.loggedOut :=
  (logout_amended ownerBot 1
      { client := some (), phone := some "+1234567890", is_premium := true,
        premium_expires := none, login_step := "code", is_owner := true }
      rfl).1 rfl

/-- C9: in every reachable bot state, each stored session's `login_step`
is `"none"`, `"phone"` or `"code"` — never `"password"` — and message
routing never produces the second-factor handler's reply, so
`handle_password_input` is dead code. -/
theorem login_step_invariant :
    ∀ b : BotState, Reachable b →
      (∀ uid s, lookupS b.user_sessions uid = some s →
        (s.login_step = "none" ∨ s.login_step = "phone" ∨ s.login_step = "code") ∧
          s.login_step ≠ "password") ∧
      (∀ (uid : Nat) (text : String),
        (handle_message b uid text).2 ≠ Reply.twoFASuccess) := by
  intro b hb
  have hok := reachable_sessionsOK hb
  constructor
  · intro uid s hl
    have hs := sessionsOK_lookupS hok hl
    refine ⟨hs, ?_⟩
    rcases hs with h | h | h <;> simp [h]
  · intro uid text
    have hok' := setup_preserves uid hok
    cases hl : lookupS (setup_owner_session b uid).user_sessions uid with
    | some s =>
      rcases sessionsOK_lookupS hok' hl with h | h | h
      · have h1 : s.login_step ≠ "phone" := by simp [h]
        have h2 : s.login_step ≠ "code" := by simp [h]
        have h3 : s.login_step ≠ "password" := by simp [h]
        by_cases hli : is_telegram_link text
        · rw [handle_message_link_of_some hl h1 h2 h3 hli, handle_telegram_link_eq]
          simp
        · simp [handle_message, hl, h1, h2, h3, hli]
      · rw [handle_message_phone hl h]
        unfold handle_phone_input
        by_cases hv : valid_phone (pyStrip text) <;> simp [hv]
      · rw [handle_message_code hl h]
        unfold handle_code_input
        by_cases hv : valid_code (pyStrip text) <;> simp [hv]
    | none =>
      by_cases hli : is_telegram_link text
      · rw [handle_message_link_of_none hl hli, handle_telegram_link_eq]
        simp
      · simp [handle_message, hl, hli]

theorem login_step_invariant_witness :
    (handle_message
        (login_command (setup_owner_session { user_sessions := [], owner_id := 5 } 5) 5).1
        5 "hello").2 ≠ Reply.twoFASuccess :=
  (login_step_invariant _
      (Reachable.login 5 (Reachable.setup 5 (Reachable.init 5)))).2 5 "hello"

/-- C10: token redemption by a non-owner is case-insensitive: any argument
whose uppercasing is in the allow-list grants premium with a fresh 3-hour
expiry, and any argument whose uppercasing is not in the allow-list leaves
the whole bot state (in particular the session's premium fields)
unchanged. -/
theorem token_case_insensitive :
    ∀ (bot : BotState) (uid : Nat) (arg : String) (now : Nat),
      uid ≠ bot.owner_id →
      (pyUpper arg ∈ premium_tokens →
        ∃ s, lookupS (token_command bot uid [arg] now).1.user_sessions uid = some s ∧
          s.is_premium = true ∧ s.premium_expires = some (now + three_hours) ∧
          (token_command bot uid [arg] now).2 = Reply.tokenActivated) ∧
      (pyUpper arg ∉ premium_tokens →
        token_command bot uid [arg] now = (bot, Reply.tokenInvalid)) := by
  intro bot uid arg now ho
  constructor <;> intro ht
  · exact ⟨_, (token_command_redeem ho ht).1, rfl, rfl, (token_command_redeem ho ht).2⟩
  · simp [token_command, ho, ht]

theorem token_case_insensitive_witness :
    (∃ s, lookupS (token_command emptyBot 7 ["FreeAccess"] 3).1.user_sessions 7 = some s ∧
       s.is_premium = true ∧ s.premium_expires = some (3 + three_hours) ∧
       (token_command emptyBot 7 ["FreeAccess"] 3).2 = Reply.tokenActivated) ∧
    token_command emptyBot 7 ["bogus"] 3 = (emptyBot, Reply.tokenInvalid) :=
  ⟨(token_case_insensitive emptyBot 7 "FreeAccess" 3 (by decide)).1 (by decide),
   (token_case_insensitive emptyBot 7 "bogus" 3 (by decide)).2 (by decide)⟩

